import Mathlib

/-!
Shallow embedding of the GhostPad provider gateway and conversation
persistence engine.

The definitions below are translated from the JavaScript sources:
* `src/services/provider-registry.js` (provider metadata, id lookup),
* `src/services/llm-service.js` (the `LLMProvider` base class; the file
  carries two variants of the constructor, both embedded),
* `src/services/providers/custom-provider.js` (OpenAI-compatible adapter),
* `src/services/providers/gemini-provider.js` (Gemini adapter),
* `src/main/main.js` (the `send-message` IPC handler, `isLocalProvider`,
  and the session IPC handlers).
`session-storage.js` and `llm-factory.js` are not part of the available
sources (only their tests and callers are); the definitions for those two
modules are modelled from the specification and are marked as such.

JavaScript dynamic values that matter to the embedded logic (truthiness of
the `isSaved` field, of credentials and of stream deltas) are modelled by
the inductive type `JsVal`; `Date` values are modelled as epoch
milliseconds (`Int`).
-/

/-- Model of the JavaScript values that reach the embedded functions:
booleans, strings, integer numbers, `null` and `undefined`. -/
inductive JsVal where
  | b (b : Bool)
  | s (s : String)
  | n (n : Int)
  | null
  | undef
deriving DecidableEq, Repr

/-- JavaScript truthiness for `JsVal`: `false`, `''`, `0`, `null` and
`undefined` are falsy, everything else is truthy. -/
def JsVal.truthy : JsVal → Bool
  | .b x => x
  | .s x => x != ""
  | .n x => x != 0
  | .null => false
  | .undef => false

/-- The string content of a `JsVal`; non-string values give `""` (the
embedded code only reads this off string credentials). -/
def JsVal.asString : JsVal → String
  | .s x => x
  | _ => ""

/-- `String.prototype.toLowerCase()` on the ASCII provider ids used by the
registry. -/
def jsToLower (s : String) : String := ⟨s.data.map Char.toLower⟩

/-- A chat message as the renderer and the stores pass it around:
`{id, type: 'user' | 'ai', text, timestamp}`, timestamps as epoch ms. -/
structure ChatMsg where
  id : String
  type : String
  text : String
  timestamp : Int
deriving DecidableEq, Repr

/-! ## Session persistence engine

`session-storage.js` itself is not among the available sources; only its
test suite (`session-saved-semantics` tests) and its callers (the session
IPC handlers in `main.js`) are.  The definitions in this section are
therefore modelled from the specification. -/

/-- A persisted session record.  `isSaved` is kept as a raw `JsVal`
because callers may hand arbitrary JavaScript values to `saveSession`;
normalization to a strict boolean is exactly what the save path adds. -/
structure SessionRecord where
  id : String
  title : String
  createdAt : Int
  updatedAt : Int
  isSaved : JsVal
  messages : List ChatMsg
  messageCount : Nat
deriving DecidableEq, Repr

/-- The on-disk store: one record per session id (one JSON file per
session in a sessions directory). -/
abbrev Store := List (String × SessionRecord)

/-- Write the record for `id`, replacing an existing record with the same
id and appending otherwise. -/
def storePut : Store → String → SessionRecord → Store
  | [], id, rec => [(id, rec)]
  | (k, v) :: rest, id, rec =>
    if k = id then (id, rec) :: rest else (k, v) :: storePut rest id rec

/-- Read the record for `id`, if present. -/
def storeGet : Store → String → Option SessionRecord
  | [], _ => none
  | (k, v) :: rest, id => if k = id then some v else storeGet rest id

/-- Modelled from the spec: `session-storage.js` is missing from the
sources.  `save` "normalizes `isSaved` to a strict boolean (`true`/`false`;
any other value, including `null`/`undefined`/non-boolean truthy values, is
coerced to boolean) and recomputes `messageCount` from `messages.length`
before writing". -/
def normalizeSession (s : SessionRecord) : SessionRecord :=
  { s with isSaved := .b s.isSaved.truthy, messageCount := s.messages.length }

/-- Modelled from the spec: `saveSession` writes the normalized record
under the session's id and returns the stored record. -/
def saveSession (store : Store) (s : SessionRecord) : Store × SessionRecord :=
  let norm := normalizeSession s
  (storePut store s.id norm, norm)

/-- Modelled from the spec: `loadSession` reads the record for `id`. -/
def loadSession (store : Store) (id : String) : Option SessionRecord :=
  storeGet store id

/-- Modelled from the spec: `toggleSessionSaved` loads the session, flips
its `isSaved` flag (normalized to a strict boolean), writes it back and
returns the updated session. -/
def toggleSessionSaved (store : Store) (id : String) :
    Option (Store × SessionRecord) :=
  match storeGet store id with
  | none => none
  | some s =>
    let flipped := { s with isSaved := .b (!s.isSaved.truthy) }
    some (storePut store id flipped, flipped)

/-- Milliseconds per day, the unit conversion behind the retention
cutoff. -/
def msPerDay : Int := 86400000

/-- Modelled from the spec: `cleanupOld(maxAgeDays, excludeSaved=true)`
"removes sessions whose `updatedAt` is older than the configured retention
window, except those flagged `isSaved = true`, which are retained
indefinitely".  `now` is the current time in epoch ms. -/
def cleanupOldSessions (store : Store) (now maxAgeDays : Int) : Store :=
  store.filter fun kv =>
    kv.2.isSaved.truthy || decide (now - maxAgeDays * msPerDay ≤ kv.2.updatedAt)

theorem storeGet_storePut (store : Store) (id : String) (rec : SessionRecord) :
    storeGet (storePut store id rec) id = some rec := by
  induction store with
  | nil => simp [storePut, storeGet]
  | cons kv rest ih =>
    by_cases h : kv.1 = id
    · simp [storePut, storeGet, h]
    · simp [storePut, storeGet, h, ih]

/-! ## Provider registry (`provider-registry.js`)

The registry is declarative metadata; `defaultProviders` below is the
embedded fallback object from the source, in declaration order. -/

/-- Per-model metadata: display name plus the optional
`options.reasoningEffort` override. -/
structure ModelMeta where
  name : String
  reasoningEffort : Option String
deriving DecidableEq, Repr

/-- A `ProviderDescriptor` as stored in the registry JSON. -/
structure ProviderMeta where
  name : String
  type : String
  description : String
  website : String
  baseUrl : Option String
  defaultModel : String
  models : List (String × ModelMeta)
deriving DecidableEq, Repr

/-- The embedded `defaultProviders` object of `provider-registry.js`. -/
def defaultProviders : List (String × ProviderMeta) :=
  [ ("gemini",
     { name := "Google Gemini"
     , type := "gemini"
     , description := "Fast and efficient vision model"
     , website := "https://makersuite.google.com/app/apikey"
     , baseUrl := none
     , defaultModel := "gemini-2.0-flash-exp"
     , models :=
       [ ("gemini-2.0-flash-exp", ⟨"Gemini 2.0 Flash (Experimental)", none⟩)
       , ("gemini-1.5-flash", ⟨"Gemini 1.5 Flash", none⟩)
       , ("gemini-1.5-pro", ⟨"Gemini 1.5 Pro", none⟩) ] })
  , ("openai",
     { name := "OpenAI"
     , type := "openai"
     , description := "Powerful multimodal AI"
     , website := "https://platform.openai.com/api-keys"
     , baseUrl := none
     , defaultModel := "gpt-4o"
     , models :=
       [ ("gpt-4o", ⟨"GPT-4o", none⟩)
       , ("gpt-4o-mini", ⟨"GPT-4o Mini", none⟩)
       , ("o1", ⟨"o1", some "high"⟩)
       , ("o1-mini", ⟨"o1 Mini", none⟩) ] })
  , ("anthropic",
     { name := "Anthropic Claude"
     , type := "anthropic"
     , description := "Advanced reasoning capabilities"
     , website := "https://console.anthropic.com/"
     , baseUrl := none
     , defaultModel := "claude-sonnet-4"
     , models :=
       [ ("claude-sonnet-4", ⟨"Claude Sonnet 4", none⟩)
       , ("claude-opus-4", ⟨"Claude Opus 4", none⟩) ] })
  , ("ollama",
     { name := "Ollama (Local)"
     , type := "openai-compatible"
     , description := "Run local models with Ollama"
     , website := "https://ollama.ai/"
     , baseUrl := some "http://localhost:11434/v1"
     , defaultModel := "llama3.2"
     , models :=
       [ ("llama3.2", ⟨"Llama 3.2", none⟩)
       , ("qwen2.5-coder:7b", ⟨"Qwen 2.5 Coder 7B", none⟩)
       , ("deepseek-r1", ⟨"DeepSeek R1", none⟩) ] }) ]

/-- JavaScript object property access `providers[id]` on the registry map:
an exact, case-sensitive key lookup (`providers[id] || null`). -/
def jsObjGet : List (String × ProviderMeta) → String → Option ProviderMeta
  | [], _ => none
  | (k, v) :: rest, id => if k = id then some v else jsObjGet rest id

/-- `getProvider(id)` of `provider-registry.js`: exact-key lookup on the
provider map, `null` when absent. -/
def getProvider (id : String) : Option ProviderMeta :=
  jsObjGet defaultProviders id

/-- `hasProvider(id)` of `provider-registry.js`: `false` on a falsy id,
otherwise a case-insensitive comparison of `id` against every registered
provider id. -/
def hasProvider (id : String) : Bool :=
  if id = "" then false
  else defaultProviders.any fun kv => jsToLower kv.1 == jsToLower id

/-- `getModels(id)` of `provider-registry.js`: the models of
`getProvider(id)` as an (id, metadata) list, `[]` when the provider is
unknown. -/
def getModels (id : String) : List (String × ModelMeta) :=
  match getProvider id with
  | none => []
  | some p => p.models

/-! ## LLM provider base class (`llm-service.js`)

The file ships two variants of the `LLMProvider` constructor: an older one
that throws `'API key is required'` on a falsy `apiKey`, and the current
one (matching the five-argument `streamResponse` signature used by the
adapters and the provider verification tests) that stores `apiKey || ''`.
Both are embedded; the adapters below chain through the current one. -/

/-- The state the base constructor leaves on the instance. -/
structure LLMProviderBase where
  apiKey : String
deriving DecidableEq, Repr

/-- The older `LLMProvider` constructor variant: `if (!apiKey) throw new
Error('API key is required')`. -/
def legacyProviderCtor (apiKey : JsVal) : Except String LLMProviderBase :=
  if apiKey.truthy then .ok { apiKey := apiKey.asString }
  else .error "API key is required"

/-- The current `LLMProvider` constructor variant:
`this.apiKey = apiKey || ''` (never throws). -/
def providerCtor (apiKey : JsVal) : LLMProviderBase :=
  { apiKey := if apiKey.truthy then apiKey.asString else "" }

/-! ## OpenAI-compatible adapter (`custom-provider.js`) -/

/-- Configuration handed to an adapter constructor; absent fields are
`none` (the code reads them as `config.x || <fallback>`). -/
structure ProviderConfig where
  model : Option String
  systemPrompt : Option String
  baseUrl : Option String
deriving DecidableEq, Repr

/-- The state `CustomProvider`'s constructor leaves on the instance. -/
structure CustomProvider where
  apiKey : String
  modelName : String
  systemPrompt : String
  clientApiKey : String
  clientBaseUrl : String
deriving DecidableEq, Repr

/-- `CustomProvider`'s constructor chained through an `LLMProvider` base
constructor (`super(apiKey, config)` can only throw inside the base). -/
def createCustomProviderWithBase
    (baseCtor : JsVal → Except String LLMProviderBase)
    (apiKey : JsVal) (config : ProviderConfig) : Except String CustomProvider :=
  match baseCtor apiKey with
  | .error e => .error e
  | .ok base =>
    .ok { apiKey := base.apiKey
        , modelName := config.model.getD ""
        , systemPrompt := config.systemPrompt.getD ""
        , clientApiKey := if apiKey.truthy then apiKey.asString else "not-needed"
        , clientBaseUrl := config.baseUrl.getD "http://localhost:11434/v1" }

/-- `new CustomProvider(apiKey, config)` over the current base class. -/
def createCustomProvider (apiKey : JsVal) (config : ProviderConfig) :
    Except String CustomProvider :=
  createCustomProviderWithBase (fun k => .ok (providerCtor k)) apiKey config

/-- Modelled from the spec: `llm-factory.js` is not under the available
sources.  `Factory.create(providerId, credential, config)` dispatches on
the provider id; the OpenAI-compatible providers flagged
`requiresApiKey = false` (`ollama`, `lm-studio`) are constructed with
`CustomProvider`. -/
def createProviderLocal (providerId : String) (apiKey : JsVal)
    (config : ProviderConfig) : Except String CustomProvider :=
  match providerId with
  | _ => createCustomProvider apiKey config

/-- Modelled from the spec: the registry metadata flags exactly the
local/self-hosted providers `ollama` and `lm-studio` with
`requiresApiKey = false` (provider verification tests check both). -/
def requiresApiKey (providerId : String) : Bool :=
  !(providerId == "ollama" || providerId == "lm-studio")

/-- Whether a constructor result models a thrown exception. -/
def ctorThrew : Except String CustomProvider → Bool
  | .ok _ => false
  | .error _ => true

/-- The `apiKey` stored on a successfully constructed adapter. -/
def ctorApiKey : Except String CustomProvider → Option String
  | .ok p => some p.apiKey
  | .error _ => none

/-! ## Streaming (`gemini-provider.js`, `custom-provider.js`)

A provider stream is modelled as the list of incremental units the vendor
SDK yields, optionally followed by a raised transport error.  Chunk
delivery to `onChunk` is modelled by the list of delivered deltas, in
call order. -/

/-- One unit of Gemini's `result.stream`; `text` is `chunk.text()`. -/
structure GChunk where
  text : String
deriving DecidableEq, Repr

/-- One unit of an OpenAI-compatible chat completion stream;
`deltaContent` is `chunk.choices[0]?.delta?.content` (`none` when the
optional chain yields `undefined`). -/
structure OChunk where
  deltaContent : Option String
deriving DecidableEq, Repr

/-- An error raised by the underlying SDK stream, as the `catch` blocks
see it (`error.name`, `error.message`). -/
structure StreamErr where
  name : String
  message : String
deriving DecidableEq, Repr

/-- `String.prototype.includes`: whether `needle` occurs as a contiguous
run inside the character list. -/
def charsContain (needle : List Char) : List Char → Bool
  | [] => needle.isEmpty
  | c :: rest => needle.isPrefixOf (c :: rest) || charsContain needle rest

/-- Gemini's abort test in the `catch` block:
`error.name === 'AbortError' || error.message?.includes('abort')`. -/
def errIsAbort (e : StreamErr) : Bool :=
  e.name == "AbortError" || charsContain "abort".data e.message.data

/-- The chunk loop of `GeminiProvider.streamResponse`: before converting
each chunk the loop checks `signal?.aborted` and breaks once it reports
`true`; a non-empty `chunk.text()` is forwarded to `onChunk`.  `ab i` is
the aborted state the signal shows when the loop reaches its `i`-th
iteration. -/
def geminiStreamLoop (ab : Nat → Bool) : List GChunk → Nat → List String
  | [], _ => []
  | c :: cs, i =>
    if ab i then []
    else if c.text != "" then c.text :: geminiStreamLoop ab cs (i + 1)
    else geminiStreamLoop ab cs (i + 1)

/-- `GeminiProvider.streamResponse`: returns the deltas delivered to
`onChunk` and the error the call re-raises, if any.  A stream error whose
shape matches an abort is swallowed (`return` inside `catch`); any other
stream error is re-wrapped as a `Gemini streaming error`. -/
def geminiStreamResponse (ab : Nat → Bool) (chunks : List GChunk)
    (streamErr : Option StreamErr) : List String × Option String :=
  let delivered := geminiStreamLoop ab chunks 0
  match streamErr with
  | none => (delivered, none)
  | some e =>
    if errIsAbort e then (delivered, none)
    else (delivered, some ("Gemini streaming error: " ++ e.message))

/-- The chunk loop of `CustomProvider.streamResponse`: every truthy
`chunk.choices[0]?.delta?.content` is forwarded to `onChunk`; the loop
consults no cancellation signal. -/
def customStreamDelivered (chunks : List OChunk) : List String :=
  chunks.filterMap fun c =>
    match c.deltaContent with
    | some d => if d != "" then some d else none
    | none => none

/-- `CustomProvider.streamResponse`: all truthy deltas are delivered; a
stream error is re-wrapped as a `Custom provider streaming error` with no
abort case. -/
def customStreamResponse (chunks : List OChunk)
    (streamErr : Option StreamErr) : List String × Option String :=
  ( customStreamDelivered chunks
  , match streamErr with
    | none => none
    | some e => some ("Custom provider streaming error: " ++ e.message) )

/-- `CustomProvider.streamResponse` as called with a cancellation signal:
the JavaScript method declares no signal parameter
(`streamResponse(text, imageBase64, conversationHistory, onChunk)`), so a
signal passed as an extra argument is ignored entirely. -/
def customStreamResponseWithSignal (ab : Nat → Bool) (chunks : List OChunk)
    (streamErr : Option StreamErr) : List String × Option String :=
  customStreamResponse chunks streamErr

/-- A cancellation signal that is already signaled before the first chunk. -/
def alwaysAborted : Nat → Bool := fun _ => true

/-! ## API key validation (`custom-provider.js`, `gemini-provider.js`) -/

/-- Whether an attempted SDK call succeeded. -/
def isOkUnit : Except String Unit → Bool
  | .ok _ => true
  | .error _ => false

/-- Result of a `validateApiKey` call together with how many times each
underlying SDK operation was attempted. -/
structure ValidateOutcome where
  result : Except String Bool
  cheapCalls : Nat
  fallbackCalls : Nat
deriving Repr

/-- `CustomProvider.validateApiKey`: try `client.models.list()` first
(non-billable); on failure fall back to a minimal
`chat.completions.create` request; `false` when both fail, with no error
propagated. -/
def customValidateApiKey (listModels chatCreate : Except String Unit) :
    ValidateOutcome :=
  match listModels with
  | .ok _ => { result := .ok true, cheapCalls := 1, fallbackCalls := 0 }
  | .error _ =>
    match chatCreate with
    | .ok _ => { result := .ok true, cheapCalls := 1, fallbackCalls := 1 }
    | .error _ => { result := .ok false, cheapCalls := 1, fallbackCalls := 1 }

/-- `GeminiProvider.validateApiKey`: try `model.countTokens('Hi')` first
(no generation quota); on failure fall back to a `generateContent('Hi')`
test request; `false` when both fail, with no error propagated. -/
def geminiValidateApiKey (countTokens generateContent : Except String Unit) :
    ValidateOutcome :=
  match countTokens with
  | .ok _ => { result := .ok true, cheapCalls := 1, fallbackCalls := 0 }
  | .error _ =>
    match generateContent with
    | .ok _ => { result := .ok true, cheapCalls := 1, fallbackCalls := 1 }
    | .error _ => { result := .ok false, cheapCalls := 1, fallbackCalls := 1 }

/-! ## The `send-message` IPC handler (`main.js`) -/

/-- `isLocalProvider(providerName)` of `main.js`: the two providers that
do not require an API key. -/
def isLocalProvider (providerName : String) : Bool :=
  providerName == "ollama" || providerName == "lm-studio"

/-- The context prefix the handler builds from a rolling summary. -/
def summaryHeader (summary : String) : String :=
  "[Context from earlier conversation: " ++ summary ++ "]\n\n"

/-- The summary handling of the `send-message` handler: when `summary` is
truthy and the history is non-empty, the summary header is prepended to
the first historical message's text (the rest of the history and the new
prompt are untouched); when the history is empty, the header is prepended
to the new prompt instead.  Returns (history, prompt) as sent onward. -/
def applySummary (history : List ChatMsg) (text : String)
    (summary : Option String) : List ChatMsg × String :=
  match summary with
  | none => (history, text)
  | some s =>
    if s == "" then (history, text)
    else
      match history with
      | [] => ([], summaryHeader s ++ text)
      | first :: rest =>
        ({ first with text := summaryHeader s ++ first.text } :: rest, text)

/-- An event the handler sends to the renderer during one exchange. -/
inductive IpcEvent where
  | chunk (delta : String)
  | complete
  | errorEvt (message : String)
deriving DecidableEq, Repr

/-- Whether an event is the `message-complete` signal. -/
def isCompleteEvent : IpcEvent → Bool
  | .complete => true
  | _ => false

/-- Observable outcome of one `send-message` invocation. -/
structure SendOutcome where
  success : Bool
  error : Option String
  adapterConstructed : Bool
  streamCalls : Nat
  promptSent : Option String
  historySent : Option (List ChatMsg)
  events : List IpcEvent
deriving Repr

/-- The `send-message` IPC handler: the API-key check runs first (for a
non-local provider a falsy credential returns the missing-key error
before the factory constructs any adapter and before `streamResponse` is
called); otherwise the summary is folded into the context, the adapter
streams (the handler passes no cancellation signal, so `signal?.aborted`
is always falsy), each delivered delta is forwarded as a `message-chunk`
event and `message-complete` is sent once after the stream ends.  A
stream error instead yields a single `message-error` event.  `chunks` and
`streamErr` parameterize what the provider's stream produces. -/
def sendMessageHandler (providerName apiKey : String) (history : List ChatMsg)
    (text : String) (summary : Option String) (chunks : List GChunk)
    (streamErr : Option StreamErr) : SendOutcome :=
  if !isLocalProvider providerName && apiKey == "" then
    { success := false
    , error := some ("No API key configured for " ++ providerName ++
        ". Please add your API key in settings.")
    , adapterConstructed := false
    , streamCalls := 0
    , promptSent := none
    , historySent := none
    , events := [] }
  else
    let ctx := applySummary history text summary
    let res := geminiStreamResponse (fun _ => false) chunks streamErr
    match res.2 with
    | none =>
      { success := true
      , error := none
      , adapterConstructed := true
      , streamCalls := 1
      , promptSent := some ctx.2
      , historySent := some ctx.1
      , events := res.1.map IpcEvent.chunk ++ [IpcEvent.complete] }
    | some msg =>
      { success := false
      , error := some msg
      , adapterConstructed := true
      , streamCalls := 1
      , promptSent := some ctx.2
      , historySent := some ctx.1
      , events := res.1.map IpcEvent.chunk ++ [IpcEvent.errorEvt msg] }

/-! ## Theorems -/

/-- C1: saving a session whose `isSaved` field holds an arbitrary
JavaScript value and reloading it under the same id yields the stored
record, whose `isSaved` is the strict boolean truthiness of the supplied
value — `true` for `true`, `'true'` and `1`, `false` for `undefined`,
`null` and `false`; in particular the stored flag is always exactly a
boolean, never `null` or `undefined`. -/
theorem save_load_isSaved_roundtrip (store : Store) (s : SessionRecord)
    (v : JsVal) :
    loadSession (saveSession store { s with isSaved := v }).1 s.id
      = some (saveSession store { s with isSaved := v }).2
    ∧ (saveSession store { s with isSaved := v }).2.isSaved = .b v.truthy
    ∧ ((v = .b true ∨ v = .s "true" ∨ v = .n 1) →
        (saveSession store { s with isSaved := v }).2.isSaved = .b true)
    ∧ ((v = .undef ∨ v = .null ∨ v = .b false) →
        (saveSession store { s with isSaved := v }).2.isSaved = .b false) := by
  refine ⟨?_, rfl, ?_, ?_⟩
  · simpa [saveSession, loadSession] using
      storeGet_storePut store s.id (normalizeSession { s with isSaved := v })
  · rintro (rfl | rfl | rfl) <;> rfl
  · rintro (rfl | rfl | rfl) <;> rfl

/-- Concrete instance of C1: the session-saved-semantics edge-case test
session with `isSaved: 'true'` round-trips to the strict boolean `true`. -/
def demoMsg : ChatMsg :=
  { id := "msg1", type := "user", text := "Hello", timestamp := 0 }

/-- A concrete session record used by the witnesses. -/
def demoSession : SessionRecord :=
  { id := "test-edge-1", title := "Edge Test", createdAt := 0, updatedAt := 0
  , isSaved := .null, messages := [demoMsg], messageCount := 0 }

/-- Witness for C1 at the concrete input `isSaved: 'true'`. -/
theorem save_load_isSaved_roundtrip_witness :
    (JsVal.s "true" = .b true ∨ JsVal.s "true" = .s "true" ∨
      JsVal.s "true" = .n 1)
    ∧ (saveSession [] { demoSession with isSaved := .s "true" }).2.isSaved
        = .b true
    ∧ loadSession (saveSession [] { demoSession with isSaved := .s "true" }).1
        demoSession.id
        = some (saveSession [] { demoSession with isSaved := .s "true" }).2 := by
  refine ⟨Or.inr (Or.inl rfl), ?_, ?_⟩
  · exact (save_load_isSaved_roundtrip [] demoSession (.s "true")).2.2.1
      (Or.inr (Or.inl rfl))
  · exact (save_load_isSaved_roundtrip [] demoSession (.s "true")).1

/-- C6: `toggleSessionSaved` is an involution: for a stored session whose
`isSaved` is the strict boolean `b`, the first toggle stores and returns
the record with `isSaved = !b`, the second toggle stores and returns the
record with `isSaved` back to `b` (the very record first stored), and
reloading after the two toggles yields that original record. -/
theorem toggleSessionSaved_involution (store : Store) (id : String)
    (s : SessionRecord) (b : Bool)
    (h1 : storeGet store id = some s) (h2 : s.isSaved = .b b) :
    toggleSessionSaved store id
      = some (storePut store id { s with isSaved := .b (!b) },
              { s with isSaved := .b (!b) })
    ∧ toggleSessionSaved (storePut store id { s with isSaved := .b (!b) }) id
      = some (storePut (storePut store id { s with isSaved := .b (!b) }) id s,
              s)
    ∧ loadSession
        (storePut (storePut store id { s with isSaved := .b (!b) }) id s) id
      = some s := by
  obtain ⟨sid, st, ca, ua, isv, msgs, mc⟩ := s
  simp only [SessionRecord.mk.injEq] at h2
  subst h2
  refine ⟨?_, ?_, ?_⟩
  · simp [toggleSessionSaved, h1, JsVal.truthy]
  · simp [toggleSessionSaved, storeGet_storePut, JsVal.truthy]
  · exact storeGet_storePut _ id _

/-- A concrete saved session record used by the witnesses. -/
def demoSaved : SessionRecord :=
  { id := "test-toggle-2", title := "Toggle Test 2", createdAt := 0
  , updatedAt := 5, isSaved := .b true, messages := [demoMsg]
  , messageCount := 1 }

/-- Witness for C6: toggling the stored session `test-toggle-2` twice
returns its `isSaved` to `true`, in the returned record and on disk. -/
theorem toggleSessionSaved_involution_witness :
    toggleSessionSaved [("test-toggle-2", demoSaved)] "test-toggle-2"
      = some (storePut [("test-toggle-2", demoSaved)] "test-toggle-2"
                { demoSaved with isSaved := .b (!true) },
              { demoSaved with isSaved := .b (!true) })
    ∧ toggleSessionSaved
        (storePut [("test-toggle-2", demoSaved)] "test-toggle-2"
          { demoSaved with isSaved := .b (!true) }) "test-toggle-2"
      = some (storePut
                (storePut [("test-toggle-2", demoSaved)] "test-toggle-2"
                  { demoSaved with isSaved := .b (!true) }) "test-toggle-2"
                demoSaved,
              demoSaved)
    ∧ loadSession
        (storePut
          (storePut [("test-toggle-2", demoSaved)] "test-toggle-2"
            { demoSaved with isSaved := .b (!true) }) "test-toggle-2"
          demoSaved) "test-toggle-2"
      = some demoSaved :=
  toggleSessionSaved_involution [("test-toggle-2", demoSaved)]
    "test-toggle-2" demoSaved true rfl rfl

/-- C7: the retention cleanup keeps exactly the sessions that are flagged
saved or not older than the cutoff `now - maxAgeDays` days: a session
with `isSaved = true` is never removed however old it is, and a session
that was stored but is gone after cleanup is unsaved with `updatedAt`
strictly older than the cutoff. -/
theorem cleanupOld_retention (store : Store) (now maxAgeDays : Int)
    (id : String) (s : SessionRecord) :
    ((id, s) ∈ cleanupOldSessions store now maxAgeDays ↔
      ((id, s) ∈ store ∧
        (s.isSaved.truthy = true ∨
          now - maxAgeDays * msPerDay ≤ s.updatedAt)))
    ∧ (s.isSaved = .b true → (id, s) ∈ store →
        (id, s) ∈ cleanupOldSessions store now maxAgeDays)
    ∧ ((id, s) ∈ store →
        (id, s) ∉ cleanupOldSessions store now maxAgeDays →
        s.isSaved.truthy = false ∧
          s.updatedAt < now - maxAgeDays * msPerDay) := by
  have hiff : (id, s) ∈ cleanupOldSessions store now maxAgeDays ↔
      ((id, s) ∈ store ∧
        (s.isSaved.truthy = true ∨
          now - maxAgeDays * msPerDay ≤ s.updatedAt)) := by
    simp [cleanupOldSessions, List.mem_filter]
  refine ⟨hiff, ?_, ?_⟩
  · intro hs hmem
    exact hiff.2 ⟨hmem, Or.inl (by simp [hs, JsVal.truthy])⟩
  · intro hmem hnot
    rw [hiff] at hnot
    push_neg at hnot
    obtain ⟨hb, hlt⟩ := hnot hmem
    exact ⟨by simpa using hb, by omega⟩

/-- An ancient saved session: 100 days old at cleanup time. -/
def demoOldSaved : SessionRecord :=
  { id := "keep-me", title := "Old but saved", createdAt := 0, updatedAt := 0
  , isSaved := .b true, messages := [], messageCount := 0 }

/-- Witness for C7: with `now` at day 100 and a 30-day window, the
100-day-old saved session survives `cleanupOldSessions`. -/
theorem cleanupOld_retention_witness :
    ("keep-me", demoOldSaved) ∈
      cleanupOldSessions [("keep-me", demoOldSaved)] (100 * msPerDay) 30 :=
  (cleanupOld_retention [("keep-me", demoOldSaved)] (100 * msPerDay) 30
    "keep-me" demoOldSaved).2.1 rfl (List.mem_singleton.2 rfl)

/-- C2: with a truthy summary, a non-empty history gets the summary
header prepended into the first historical message's text — the history
keeps its length, no extra leading turn appears and the new prompt is
untouched — while an empty history leaves the history empty and prepends
the header to the new prompt instead. -/
theorem applySummary_prepends (text s : String) (first : ChatMsg)
    (rest : List ChatMsg) (h : (s == "") = false) :
    applySummary (first :: rest) text (some s)
      = ({ first with text := summaryHeader s ++ first.text } :: rest, text)
    ∧ (applySummary (first :: rest) text (some s)).1.length
        = (first :: rest).length
    ∧ applySummary [] text (some s) = ([], summaryHeader s ++ text) := by
  refine ⟨?_, ?_, ?_⟩ <;> simp [applySummary, h]

/-- Witness for C2: sending `"Hello"` with `summary = "earlier context"`
and no prior history prepends the summary into the outgoing prompt. -/
theorem applySummary_prepends_witness :
    (("earlier context" == "") = false)
    ∧ applySummary [] "Hello" (some "earlier context")
        = ([], summaryHeader "earlier context" ++ "Hello") :=
  ⟨by decide,
   (applySummary_prepends "Hello" "earlier context" demoMsg [] (by decide)).2.2⟩

/-- C3: for a provider that requires an API key (a non-local provider),
an empty configured credential makes `send-message` fail with the
missing-API-key error before anything else happens: no adapter is
constructed, `streamResponse` is never called and no event reaches the
renderer. -/
theorem missing_api_key_fails_fast (providerName apiKey : String)
    (history : List ChatMsg) (text : String) (summary : Option String)
    (chunks : List GChunk) (streamErr : Option StreamErr)
    (hp : isLocalProvider providerName = false) (hk : apiKey = "") :
    (sendMessageHandler providerName apiKey history text summary chunks
        streamErr).success = false
    ∧ (sendMessageHandler providerName apiKey history text summary chunks
        streamErr).adapterConstructed = false
    ∧ (sendMessageHandler providerName apiKey history text summary chunks
        streamErr).streamCalls = 0
    ∧ (sendMessageHandler providerName apiKey history text summary chunks
        streamErr).events = []
    ∧ (sendMessageHandler providerName apiKey history text summary chunks
        streamErr).error
        = some ("No API key configured for " ++ providerName ++
            ". Please add your API key in settings.") := by
  subst hk
  refine ⟨?_, ?_, ?_, ?_, ?_⟩ <;> simp [sendMessageHandler, hp]

/-- Witness for C3 at the key-requiring provider `gemini` with an empty
credential. -/
theorem missing_api_key_fails_fast_witness :
    isLocalProvider "gemini" = false
    ∧ (sendMessageHandler "gemini" "" [] "Hi" none [] none).adapterConstructed
        = false
    ∧ (sendMessageHandler "gemini" "" [] "Hi" none [] none).streamCalls = 0 :=
  ⟨by decide,
   (missing_api_key_fails_fast "gemini" "" [] "Hi" none [] none
      (by decide) rfl).2.1,
   (missing_api_key_fails_fast "gemini" "" [] "Hi" none [] none
      (by decide) rfl).2.2.1⟩

/-- The Gemini chunk loop with a never-aborted signal delivers exactly
the non-empty `chunk.text()` values, in stream order. -/
theorem geminiStreamLoop_no_abort (chunks : List GChunk) (i : Nat) :
    geminiStreamLoop (fun _ => false) chunks i
      = chunks.filterMap fun c => if c.text != "" then some c.text else none := by
  induction chunks generalizing i with
  | nil => simp [geminiStreamLoop]
  | cons c cs ih =>
    by_cases hc : c.text = ""
    · simp [geminiStreamLoop, hc, ih, List.filterMap_cons]
    · simp [geminiStreamLoop, hc, ih, List.filterMap_cons]

/-- Chunk events are never the completion event. -/
theorem filter_complete_map_chunk (l : List String) :
    (l.map IpcEvent.chunk).filter isCompleteEvent = [] := by
  induction l with
  | nil => rfl
  | cons a t ih => simp [isCompleteEvent, ih]

/-- C8: on a streaming exchange that passes the key check and whose
stream raises no error, the renderer receives one `message-chunk` event
per non-empty delta, in the provider's order, followed by exactly one
`message-complete` event, which is the last event before control
returns. -/
theorem stream_chunks_single_completion (providerName apiKey : String)
    (history : List ChatMsg) (text : String) (summary : Option String)
    (chunks : List GChunk)
    (h : (!isLocalProvider providerName && apiKey == "") = false) :
    (sendMessageHandler providerName apiKey history text summary chunks
        none).events
      = ((chunks.filterMap fun c =>
            if c.text != "" then some c.text else none).map IpcEvent.chunk)
        ++ [IpcEvent.complete]
    ∧ ((sendMessageHandler providerName apiKey history text summary chunks
        none).events.filter isCompleteEvent).length = 1
    ∧ (sendMessageHandler providerName apiKey history text summary chunks
        none).events.getLast? = some IpcEvent.complete := by
  have hev : (sendMessageHandler providerName apiKey history text summary
      chunks none).events
      = ((chunks.filterMap fun c =>
            if c.text != "" then some c.text else none).map IpcEvent.chunk)
        ++ [IpcEvent.complete] := by
    simp [sendMessageHandler, h, geminiStreamResponse,
      geminiStreamLoop_no_abort]
  refine ⟨hev, ?_, ?_⟩
  · rw [hev, List.filter_append, filter_complete_map_chunk]
    rfl
  · rw [hev]
    exact List.getLast?_concat _

/-- Witness for C8: an ollama exchange with chunks `"Hel"`, `""`, `"lo"`
sends the two non-empty chunk events and then a single completion. -/
theorem stream_chunks_single_completion_witness :
    ((!isLocalProvider "ollama" && ("" == "")) = false)
    ∧ (sendMessageHandler "ollama" "" [] "Hi" none
        [{ text := "Hel" }, { text := "" }, { text := "lo" }] none).events
      = [IpcEvent.chunk "Hel", IpcEvent.chunk "lo", IpcEvent.complete] := by
  constructor
  · decide
  · rw [(stream_chunks_single_completion "ollama" "" [] "Hi" none
      [{ text := "Hel" }, { text := "" }, { text := "lo" }] (by decide)).1]
    decide

/-- C4: for the providers flagged `requiresApiKey = false` (`ollama` and
`lm-studio`), constructing the adapter through the factory with an empty,
`null` or `undefined` credential (any falsy credential) does not throw,
and the constructed adapter stores the empty string as its `apiKey`. -/
theorem local_provider_empty_credential (config : ProviderConfig) (v : JsVal)
    (h : v.truthy = false) :
    requiresApiKey "ollama" = false
    ∧ requiresApiKey "lm-studio" = false
    ∧ ctorThrew (createProviderLocal "ollama" v config) = false
    ∧ ctorApiKey (createProviderLocal "ollama" v config) = some ""
    ∧ ctorThrew (createProviderLocal "lm-studio" v config) = false
    ∧ ctorApiKey (createProviderLocal "lm-studio" v config) = some "" := by
  refine ⟨rfl, rfl, ?_, ?_, ?_, ?_⟩ <;>
    simp [createProviderLocal, createCustomProvider,
      createCustomProviderWithBase, providerCtor, ctorThrew, ctorApiKey, h]

/-- The registry-derived configuration the factory hands to the ollama
adapter. -/
def demoConfig : ProviderConfig :=
  { model := some "llama3.2", systemPrompt := none
  , baseUrl := some "http://localhost:11434/v1" }

/-- Witness for C4 at the concrete credential `null` for `ollama`. -/
theorem local_provider_empty_credential_witness :
    JsVal.null.truthy = false
    ∧ ctorThrew (createProviderLocal "ollama" .null demoConfig) = false
    ∧ ctorApiKey (createProviderLocal "ollama" .null demoConfig) = some "" :=
  ⟨rfl,
   (local_provider_empty_credential demoConfig .null rfl).2.2.1,
   (local_provider_empty_credential demoConfig .null rfl).2.2.2.1⟩

/-- Once the cancellation signal reads aborted at loop index `n`, the
Gemini chunk loop behaves as if the stream ended after its first `n`
chunks. -/
theorem geminiStreamLoop_take (ab : Nat → Bool) :
    ∀ (n : Nat) (chunks : List GChunk) (i : Nat), ab (i + n) = true →
      geminiStreamLoop ab chunks i = geminiStreamLoop ab (chunks.take n) i := by
  intro n
  induction n with
  | zero =>
    intro chunks i h
    cases chunks with
    | nil => simp
    | cons c cs =>
      simp only [Nat.add_zero] at h
      simp [geminiStreamLoop, h]
  | succ n ih =>
    intro chunks i h
    cases chunks with
    | nil => simp
    | cons c cs =>
      have h' : ab (i + 1 + n) = true := by
        have e : i + 1 + n = i + (n + 1) := by omega
        rw [e]; exact h
      by_cases hab : ab i
      · simp [geminiStreamLoop, hab]
      · simp [geminiStreamLoop, hab, ih cs (i + 1) h']

/-- C5 (amended): `GeminiProvider.streamResponse` honors the signal —
once it reads aborted at chunk index `n`, the delivered chunks are those
of the first `n` stream chunks only, and the call reports no error (an
abort never surfaces as a failure).  `CustomProvider.streamResponse`,
whose signature has no signal parameter, ignores a supplied cancellation
signal entirely and delivers every truthy delta. -/
theorem stream_cancellation_semantics (ab : Nat → Bool)
    (chunks : List GChunk) (n : Nat) (streamErr : Option StreamErr)
    (h : ab n = true) :
    (geminiStreamResponse ab chunks streamErr).1
      = geminiStreamLoop ab (chunks.take n) 0
    ∧ (geminiStreamResponse ab chunks none).2 = none
    ∧ ∀ (ab2 : Nat → Bool) (ochunks : List OChunk),
        customStreamResponseWithSignal ab2 ochunks none
          = (customStreamDelivered ochunks, none) := by
  have hloop := geminiStreamLoop_take ab n chunks 0 (by simpa using h)
  refine ⟨?_, rfl, fun ab2 oc => rfl⟩
  cases streamErr with
  | none => simpa [geminiStreamResponse] using hloop
  | some e =>
    by_cases he : errIsAbort e <;> simp [geminiStreamResponse, he, hloop]

/-- A signal that becomes aborted after the first chunk is consumed. -/
def abAfterOne : Nat → Bool := fun i => decide (1 ≤ i)

/-- Witness for C5 (amended): with the signal aborting at index 1, only
the first chunk is delivered. -/
theorem stream_cancellation_semantics_witness :
    abAfterOne 1 = true
    ∧ (geminiStreamResponse abAfterOne
        [{ text := "Hel" }, { text := "lo" }] none).1
      = geminiStreamLoop abAfterOne
          (([{ text := "Hel" }, { text := "lo" }] : List GChunk).take 1) 0
    ∧ geminiStreamLoop abAfterOne
        (([{ text := "Hel" }, { text := "lo" }] : List GChunk).take 1) 0
      = ["Hel"] :=
  ⟨by decide,
   (stream_cancellation_semantics abAfterOne
     [{ text := "Hel" }, { text := "lo" }] 1 none (by decide)).1,
   by decide⟩

/-- C5 counterexample: the claim as stated fails on
`CustomProvider.streamResponse`.  With a cancellation signal already
signaled before any chunk is consumed (so N = 0 chunks were delivered
before cancellation), the call still delivers chunk N+1 and beyond: both
deltas come through. -/
theorem custom_stream_ignores_cancellation_counterexample :
    alwaysAborted 0 = true
    ∧ customStreamResponseWithSignal alwaysAborted
        [{ deltaContent := some "Hel" }, { deltaContent := some "lo" }] none
      = (["Hel", "lo"], none) :=
  ⟨rfl, rfl⟩

/-- C9: both adapters' `validateApiKey` attempt the cheap non-billable
check first (`models.list` / `countTokens`), fall back to one minimal
real request only when it fails, answer `true` exactly when either
attempt succeeds, and always return a boolean instead of propagating the
underlying error. -/
theorem validateApiKey_total_boolean (r1 r2 g1 g2 : Except String Unit) :
    (customValidateApiKey r1 r2).result = .ok (isOkUnit r1 || isOkUnit r2)
    ∧ (customValidateApiKey r1 r2).cheapCalls = 1
    ∧ (customValidateApiKey r1 r2).fallbackCalls
        = (if isOkUnit r1 then 0 else 1)
    ∧ (geminiValidateApiKey g1 g2).result = .ok (isOkUnit g1 || isOkUnit g2)
    ∧ (geminiValidateApiKey g1 g2).cheapCalls = 1
    ∧ (geminiValidateApiKey g1 g2).fallbackCalls
        = (if isOkUnit g1 then 0 else 1) := by
  cases r1 <;> cases r2 <;> cases g1 <;> cases g2 <;>
    simp [customValidateApiKey, geminiValidateApiKey, isOkUnit]

/-- C10: the registry's existence check and its lookup disagree on id
matching: `hasProvider` is case-insensitive while `getProvider` and
`getModels` are case-sensitive, so the id `"GEMINI"` — which differs from
the registered `"gemini"` only in letter case — passes `hasProvider` yet
gets `null` from `getProvider` and the empty model list from
`getModels`. -/
theorem registry_case_mismatch :
    hasProvider "GEMINI" = true
    ∧ getProvider "GEMINI" = none
    ∧ getModels "GEMINI" = []
    ∧ hasProvider "gemini" = true
    ∧ (getProvider "gemini").isSome = true
    ∧ (getModels "gemini").length = 3
    ∧ jsToLower "GEMINI" = jsToLower "gemini" := by
  decide
